import Mathlib

/-!
Shallow embedding of the caching and aggregation core of `cgi-bin/api.py`
(PlexTCG / PokePulse backend proxy).

Modelling conventions:
* JSON-like Python values (`json.loads` results, dict payloads) are the
  inductive type `JVal`; Python `None` is `JVal.null`.
* The SQLite `cache` table is an association list `Store`; `INSERT OR
  REPLACE` removes any row with the key and conses a fresh row;
  `DELETE WHERE cache_key=?` filters the key out.  `COUNT(*)` is the list
  length.
* Wall-clock time (`datetime.utcnow()`) is an integer number of seconds;
  an entry's age is `now - created_at` exactly as in `cache_get`.
* The network (`urllib.request.urlopen`) is an oracle
  `Network : endpoint → params → FetchOutcome`; `api_fetch` additionally
  returns the number of network calls it performed (0 or 1), which lets
  theorems state the credential short-circuit.
* Python truthiness (`if cached:`, `if cid`, `x or y`) is `jTruthy`/`pyOr`.
-/

namespace PokePulse

/-- JSON-like values, the shape of `json.loads` results and of the dict
payloads the handlers pass around.  Objects keep their key order, as Python
dicts do. -/
inductive JVal where
  | null : JVal
  | bool : Bool → JVal
  | num : Rat → JVal
  | str : String → JVal
  | arr : List JVal → JVal
  | obj : List (String × JVal) → JVal

mutual

/-- Decidable equality of JSON-like values (the `deriving` handler does not
support this nested inductive, so it is spelled out). -/
def JVal.decEq : (a b : JVal) → Decidable (a = b)
  | .null, .null => isTrue rfl
  | .null, .bool _ => isFalse (fun h => JVal.noConfusion h)
  | .null, .num _ => isFalse (fun h => JVal.noConfusion h)
  | .null, .str _ => isFalse (fun h => JVal.noConfusion h)
  | .null, .arr _ => isFalse (fun h => JVal.noConfusion h)
  | .null, .obj _ => isFalse (fun h => JVal.noConfusion h)
  | .bool _, .null => isFalse (fun h => JVal.noConfusion h)
  | .bool a, .bool b =>
    if h : a = b then isTrue (by rw [h]) else
      isFalse (fun hh => h (by injection hh))
  | .bool _, .num _ => isFalse (fun h => JVal.noConfusion h)
  | .bool _, .str _ => isFalse (fun h => JVal.noConfusion h)
  | .bool _, .arr _ => isFalse (fun h => JVal.noConfusion h)
  | .bool _, .obj _ => isFalse (fun h => JVal.noConfusion h)
  | .num _, .null => isFalse (fun h => JVal.noConfusion h)
  | .num _, .bool _ => isFalse (fun h => JVal.noConfusion h)
  | .num a, .num b =>
    if h : a = b then isTrue (by rw [h]) else
      isFalse (fun hh => h (by injection hh))
  | .num _, .str _ => isFalse (fun h => JVal.noConfusion h)
  | .num _, .arr _ => isFalse (fun h => JVal.noConfusion h)
  | .num _, .obj _ => isFalse (fun h => JVal.noConfusion h)
  | .str _, .null => isFalse (fun h => JVal.noConfusion h)
  | .str _, .bool _ => isFalse (fun h => JVal.noConfusion h)
  | .str _, .num _ => isFalse (fun h => JVal.noConfusion h)
  | .str a, .str b =>
    if h : a = b then isTrue (by rw [h]) else
      isFalse (fun hh => h (by injection hh))
  | .str _, .arr _ => isFalse (fun h => JVal.noConfusion h)
  | .str _, .obj _ => isFalse (fun h => JVal.noConfusion h)
  | .arr _, .null => isFalse (fun h => JVal.noConfusion h)
  | .arr _, .bool _ => isFalse (fun h => JVal.noConfusion h)
  | .arr _, .num _ => isFalse (fun h => JVal.noConfusion h)
  | .arr _, .str _ => isFalse (fun h => JVal.noConfusion h)
  | .arr as, .arr bs =>
    match JVal.decEqList as bs with
    | isTrue h => isTrue (by rw [h])
    | isFalse h => isFalse (fun hh => h (by injection hh))
  | .arr _, .obj _ => isFalse (fun h => JVal.noConfusion h)
  | .obj _, .null => isFalse (fun h => JVal.noConfusion h)
  | .obj _, .bool _ => isFalse (fun h => JVal.noConfusion h)
  | .obj _, .num _ => isFalse (fun h => JVal.noConfusion h)
  | .obj _, .str _ => isFalse (fun h => JVal.noConfusion h)
  | .obj _, .arr _ => isFalse (fun h => JVal.noConfusion h)
  | .obj as, .obj bs =>
    match JVal.decEqEntries as bs with
    | isTrue h => isTrue (by rw [h])
    | isFalse h => isFalse (fun hh => h (by injection hh))

/-- Decidable equality of JSON array contents. -/
def JVal.decEqList : (a b : List JVal) → Decidable (a = b)
  | [], [] => isTrue rfl
  | [], _ :: _ => isFalse (fun h => List.noConfusion h)
  | _ :: _, [] => isFalse (fun h => List.noConfusion h)
  | a :: as, b :: bs =>
    match JVal.decEq a b, JVal.decEqList as bs with
    | isTrue h1, isTrue h2 => isTrue (by rw [h1, h2])
    | isFalse h1, _ => isFalse (fun hh => h1 (by injection hh))
    | _, isFalse h2 => isFalse (fun hh => h2 (by injection hh))

/-- Decidable equality of JSON object entry lists. -/
def JVal.decEqEntries :
    (a b : List (String × JVal)) → Decidable (a = b)
  | [], [] => isTrue rfl
  | [], _ :: _ => isFalse (fun h => List.noConfusion h)
  | _ :: _, [] => isFalse (fun h => List.noConfusion h)
  | (k1, v1) :: as, (k2, v2) :: bs =>
    if hk : k1 = k2 then
      match JVal.decEq v1 v2, JVal.decEqEntries as bs with
      | isTrue h1, isTrue h2 => isTrue (by rw [hk, h1, h2])
      | isFalse h1, _ =>
        isFalse (fun hh => by
          injection hh with hp ht
          exact h1 (congrArg Prod.snd hp))
      | _, isFalse h2 =>
        isFalse (fun hh => by
          injection hh with hp ht
          exact h2 ht)
    else
      isFalse (fun hh => by
        injection hh with hp ht
        exact hk (congrArg Prod.fst hp))

end

instance : DecidableEq JVal := JVal.decEq

/-- Python falsiness of a JSON-like value: `None`, `False`, `0`, `""`,
`[]`, `{}` are falsy. -/
def jFalsy : JVal → Bool
  | .null => true
  | .bool b => !b
  | .num q => q == 0
  | .str s => s == ""
  | .arr l => l.isEmpty
  | .obj l => l.isEmpty

/-- Python truthiness of a JSON-like value. -/
def jTruthy (v : JVal) : Bool := !jFalsy v

/-- Truthiness of an optional value: `None` (absent) is falsy.  Models
`if cached:` where `cached` is the result of `cache_get`. -/
def jTruthyOpt : Option JVal → Bool
  | some v => jTruthy v
  | none => false

/-- Dictionary lookup `d[k]` / `k in d` support: `some` iff the value is an
object that has the key.  (Indexing a non-dict raises in Python; no claim
exercises that path.) -/
def jGet : JVal → String → Option JVal
  | .obj kvs, k => kvs.lookup k
  | _, _ => none

/-- Python `d.get(k)`: `None` when the key is absent. -/
def pyGet (v : JVal) (k : String) : JVal := (jGet v k).getD .null

/-- Python `a or b`: `a` when truthy, else `b`. -/
def pyOr (a b : JVal) : JVal := if jTruthy a then a else b

/-- Dictionary assignment `d[k] = v`: overwrite in place if the key exists,
else append at the end (Python dict semantics). -/
def setPair (kvs : List (String × JVal)) (k : String) (v : JVal) :
    List (String × JVal) :=
  if (kvs.lookup k).isSome then
    kvs.map (fun p => if p.1 = k then (k, v) else p)
  else kvs ++ [(k, v)]

/-- `d[k] = v` on a JSON value (the handlers only ever do this to dicts;
on a non-dict the source would raise, and every claim that reaches this
operation carries the dict-shaped hypothesis). -/
def jSetKey : JVal → String → JVal → JVal
  | .obj kvs, k, v => .obj (setPair kvs k v)
  | w, _, _ => w

/-- Row of the SQLite `cache` table (the `cache_key` column is the
association-list key). -/
structure CacheEntry where
  data : JVal
  created_at : Int
  ttl_seconds : Nat
  deriving DecidableEq

/-- The `cache` table: one row per key (`cache_key TEXT PRIMARY KEY`). -/
abbrev Store := List (String × CacheEntry)

/-- Number of cache rows, as reported by `handle_status` via
`SELECT COUNT(*) FROM cache`. -/
def cache_entries (db : Store) : Nat := db.length

/-- Cache TTLs (seconds), from the `Config` section of `api.py`. -/
def TTL_SETS : Nat := 86400

/-- 12 hours, for card lists. -/
def TTL_CARDS : Nat := 43200

/-- 6 hours, for card detail with history. -/
def TTL_DETAIL : Nat := 21600

/-- 24 hours, for popular/trending. -/
def TTL_POPULAR : Nat := 86400

/-- `cache_get(db, key)`: look the key up; absent → `None`; present but
stale (`age > ttl_seconds`) → delete the row and return `None`; fresh →
return the stored payload.  Returns the possibly-updated store alongside
the lookup result. -/
def cache_get (db : Store) (key : String) (now : Int) :
    Option JVal × Store :=
  match db.lookup key with
  | none => (none, db)
  | some e =>
    if now - e.created_at > (e.ttl_seconds : Int) then
      (none, db.filter (fun p => p.1 != key))
    else
      (some e.data, db)

/-- `cache_set(db, key, data, ttl)`: `INSERT OR REPLACE` with
`created_at = utcnow()`. -/
def cache_set (db : Store) (key : String) (data : JVal) (ttl : Nat)
    (now : Int) : Store :=
  (key, ⟨data, now, ttl⟩) :: db.filter (fun p => p.1 != key)

/-- Outcome of one `urllib.request.urlopen` call as `api_fetch` observes it:
a success carries the decoded JSON body and the three optional rate-limit
headers; an HTTP error carries the status code and either the
JSON-decoded error body (`Sum.inl`) or, when the body is not valid JSON,
its raw text (`Sum.inr`); a transport failure carries the exception
message. -/
inductive FetchOutcome where
  | success (body : JVal) (limit remaining reset : Option String)
  | httpError (code : Nat) (body : Sum JVal String)
  | transportFail (msg : String)

/-- The network as an oracle: what the upstream answers for a given
endpoint and parameter list. -/
def Network := String → List (String × String) → FetchOutcome

/-- Header value as stored into `_rateLimit`: `headers.get(...)` yields a
string or `None`. -/
def optStr : Option String → JVal
  | some s => .str s
  | none => .null

/-- `api_fetch(endpoint, params)`.  Returns `(payload, status, calls)`
where `calls` is the number of network calls performed (0 or 1): with an
empty API key the function returns the error payload and 500 before any
network call.  On success the decoded body gains a `_rateLimit` object; a
success body that is not a dict makes the item assignment raise
`TypeError`, which the outer `except` turns into a 500 error payload. -/
def api_fetch (apiKey : String) (net : Network) (endpoint : String)
    (params : List (String × String)) : JVal × Nat × Nat :=
  if apiKey = "" then
    (.obj [("error", .str "API key not configured")], 500, 0)
  else
    match net endpoint params with
    | .success body l r s =>
      match body with
      | .obj kvs =>
        (.obj (setPair kvs "_rateLimit"
          (.obj [("limit", optStr l), ("remaining", optStr r),
                 ("reset", optStr s)])), 200, 1)
      | _ => (.obj [("error", .str "TypeError")], 500, 1)
    | .httpError code (.inl errJson) => (errJson, code, 1)
    | .httpError code (.inr raw) => (.obj [("error", .str raw)], code, 1)
    | .transportFail msg => (.obj [("error", .str msg)], 500, 1)

/-- Code-point lexicographic comparison of character lists, the order in
which Python compares strings (`json.dumps(..., sort_keys=True)` sorts
keys with it). -/
def charListLe : List Char → List Char → Bool
  | [], _ => true
  | _ :: _, [] => false
  | a :: as, b :: bs =>
    if a < b then true
    else if b < a then false
    else charListLe as bs

/-- Python string comparison (code-point lexicographic), the order
`sort_keys=True` sorts by. -/
def strLe (a b : String) : Bool := charListLe a.data b.data

/-- Key order used by `sort_keys=True`: compare entries by their key with
the Python string order. -/
def keyRel (a b : String × String) : Prop := strLe a.1 b.1 = true

instance : DecidableRel keyRel := fun a b =>
  inferInstanceAs (Decidable (strLe a.1 b.1 = true))

/-- Strict version of `keyRel` (distinct keys), under which a sorted
entry list with unique keys is unique. -/
def keyRelS (a b : String × String) : Prop := keyRel a b ∧ a.1 ≠ b.1

/-- Parameter mapping canonicalized the way `json.dumps(params,
sort_keys=True)` does: entries stably sorted by key. -/
def paramsSorted (params : List (String × String)) :
    List (String × String) :=
  List.insertionSort keyRel params

/-- Serialization of a string-to-string mapping as
`json.dumps(params, sort_keys=True)` renders it (string escaping is not
modelled; parameter strings are taken verbatim). -/
def jsonDumpsParams (params : List (String × String)) : String :=
  "\x7b" ++ String.intercalate ", "
    ((paramsSorted params).map
      (fun p => "\"" ++ p.1 ++ "\": \"" ++ p.2 ++ "\"")) ++ "\x7d"

/-- Cache key of `handle_cards`:
`f"cards:{json.dumps(params, sort_keys=True)}"`. -/
def cardsCacheKey (params : List (String × String)) : String :=
  "cards:" ++ jsonDumpsParams params

/-- Cache key of `handle_sets`:
`f"sets:{json.dumps(params, sort_keys=True)}"`. -/
def setsCacheKey (params : List (String × String)) : String :=
  "sets:" ++ jsonDumpsParams params

/-- Python `params.get(k, d)` on the string-to-string request mapping. -/
def paramGetD (params : List (String × String)) (k d : String) : String :=
  (params.lookup k).getD d

/-- The ten canned popular queries (`POPULAR_QUERIES`). -/
def POPULAR_QUERIES : List (List (String × String)) :=
  [[("search", "charizard"), ("limit", "8"), ("sortBy", "price"),
    ("sortOrder", "desc")],
   [("search", "pikachu"), ("limit", "6"), ("sortBy", "price"),
    ("sortOrder", "desc")],
   [("search", "mewtwo"), ("limit", "4"), ("sortBy", "price"),
    ("sortOrder", "desc")],
   [("search", "lugia"), ("limit", "4"), ("sortBy", "price"),
    ("sortOrder", "desc")],
   [("search", "umbreon"), ("limit", "4"), ("sortBy", "price"),
    ("sortOrder", "desc")],
   [("search", "rayquaza"), ("limit", "4"), ("sortBy", "price"),
    ("sortOrder", "desc")],
   [("search", "gengar"), ("limit", "4"), ("sortBy", "price"),
    ("sortOrder", "desc")],
   [("search", "blastoise"), ("limit", "4"), ("sortBy", "price"),
    ("sortOrder", "desc")],
   [("search", "mew"), ("limit", "3"), ("sortBy", "price"),
    ("sortOrder", "desc")],
   [("search", "eevee"), ("limit", "3"), ("sortBy", "price"),
    ("sortOrder", "desc")]]

/-- Canonical card identifier:
`card.get("tcgPlayerId") or card.get("id")`. -/
def canonicalId (card : JVal) : JVal :=
  pyOr (pyGet card "tcgPlayerId") (pyGet card "id")

/-- One iteration of the dedup loop body over `(all_cards, seen_ids)`:
`if cid and cid not in seen_ids: seen_ids.add(cid);
all_cards.append(card)`. -/
def dedupStep (st : List JVal × List JVal) (card : JVal) :
    List JVal × List JVal :=
  let cid := canonicalId card
  if jTruthy cid = true ∧ cid ∉ st.2 then
    (st.1 ++ [card], cid :: st.2)
  else st

/-- Contribution of one sub-query response:
`if status == 200 and "data" in data: for card in data["data"]: ...`.
A present `"data"` that is not a list would make the source raise while
iterating; the claims about the aggregator carry a well-shapedness
hypothesis excluding that case, and the model skips such a response. -/
def collectResp (acc : List JVal × List JVal) (resp : JVal × Nat) :
    List JVal × List JVal :=
  if resp.2 = 200 then
    match jGet resp.1 "data" with
    | some (.arr cards) => cards.foldl dedupStep acc
    | _ => acc
  else acc

/-- Sort key of the final sort:
`c.get("prices", {}).get("market") or 0`.  A missing `prices` dict, a
missing or null `market` entry all give 0; a numeric market price is used
as-is (`x or 0` is the identity on numbers up to `0 == 0.0`).  A truthy
non-numeric market value would make the source's comparison raise; the
claims carry a numeric-price hypothesis there. -/
def sortPrice (c : JVal) : Rat :=
  match pyGet ((jGet c "prices").getD (.obj [])) "market" with
  | .num q => q
  | _ => 0

/-- Lexicographic relation (key descending, original position ascending)
under which the output of Python's stable descending sort is the unique
sorted permutation. -/
def descRel (key : JVal → Rat) (a b : Nat × JVal) : Prop :=
  key b.2 < key a.2 ∨ (key a.2 = key b.2 ∧ a.1 ≤ b.1)

instance (key : JVal → Rat) : DecidableRel (descRel key) := fun a b =>
  inferInstanceAs
    (Decidable (key b.2 < key a.2 ∨ (key a.2 = key b.2 ∧ a.1 ≤ b.1)))

/-- Strict position order on annotated cards. -/
def idxLt (a b : Nat × JVal) : Prop := a.1 < b.1

/-- Python `list.sort(key=key, reverse=True)`: a stable descending sort.
Modelled as the unique permutation sorted by (key descending, original
position ascending): annotate with positions, sort by that lexicographic
relation, strip the positions. -/
def pySortDesc (key : JVal → Rat) (l : List JVal) : List JVal :=
  (List.insertionSort (descRel key) l.enum).map Prod.snd

/-- The responses `handle_popular` collects: one `api_fetch` per canned
query, in list order. -/
def popularResponses (apiKey : String) (net : Network) :
    List (JVal × Nat) :=
  POPULAR_QUERIES.map
    (fun q =>
      let fr := api_fetch apiKey net "cards" q
      (fr.1, fr.2.1))

/-- The `(all_cards, seen_ids)` state after the fetch-and-dedup loop of
`handle_popular`. -/
def popularAccum (apiKey : String) (net : Network) :
    List JVal × List JVal :=
  (popularResponses apiKey net).foldl collectResp ([], [])

/-- The `result` dict `handle_popular` builds on a cache miss. -/
def popular_result (apiKey : String) (net : Network) : JVal :=
  let allCards := pySortDesc sortPrice (popularAccum apiKey net).1
  .obj [("data", .arr allCards),
        ("metadata",
          .obj [("total", .num (allCards.length : Rat)),
                ("count", .num (allCards.length : Rat)),
                ("source", .str "curated_popular")])]

/-- Miss path of `handle_popular`: build the aggregate and cache it
unconditionally with `TTL_POPULAR`. -/
def popular_miss (apiKey : String) (net : Network) (now : Int)
    (db : Store) : JVal × Nat × Store :=
  let result := popular_result apiKey net
  (result, 200, cache_set db "popular:v2" result TTL_POPULAR now)

/-- `handle_popular(params)` (the request params are unused by the
source).  Result is `(payload, status, store after the call)`. -/
def handle_popular (apiKey : String) (net : Network) (now : Int)
    (db : Store) : JVal × Nat × Store :=
  let g := cache_get db "popular:v2" now
  if jTruthyOpt g.1 = true then
    (jSetKey (g.1.getD .null) "_cached" (.bool true), 200, g.2)
  else
    popular_miss apiKey net now g.2

/-- Miss path of `handle_sets`: fetch, cache only on status 200 with
`TTL_SETS`, pass the payload and status through. -/
def sets_miss (apiKey : String) (net : Network) (now : Int) (db : Store)
    (ck : String) (params : List (String × String)) :
    JVal × Nat × Store :=
  let fr := api_fetch apiKey net "sets" params
  let db2 := if fr.2.1 = 200 then cache_set db ck fr.1 TTL_SETS now
             else db
  (fr.1, fr.2.1, db2)

/-- `handle_sets(params)`. -/
def handle_sets (apiKey : String) (net : Network) (now : Int)
    (db : Store) (params : List (String × String)) :
    JVal × Nat × Store :=
  let ck := setsCacheKey params
  let g := cache_get db ck now
  if jTruthyOpt g.1 = true then
    (jSetKey (g.1.getD .null) "_cached" (.bool true), 200, g.2)
  else
    sets_miss apiKey net now g.2 ck params

/-- TTL selected by `handle_cards`:
`TTL_DETAIL if params.get("includeHistory", "false") == "true" else
TTL_CARDS`. -/
def cardsTtl (params : List (String × String)) : Nat :=
  if paramGetD params "includeHistory" "false" = "true" then TTL_DETAIL
  else TTL_CARDS

/-- Miss path of `handle_cards`: fetch, cache only on status 200 with the
history-dependent TTL, pass the payload and status through. -/
def cards_miss (apiKey : String) (net : Network) (now : Int) (db : Store)
    (ck : String) (params : List (String × String)) :
    JVal × Nat × Store :=
  let fr := api_fetch apiKey net "cards" params
  let db2 := if fr.2.1 = 200 then
               cache_set db ck fr.1 (cardsTtl params) now
             else db
  (fr.1, fr.2.1, db2)

/-- `handle_cards(params)`. -/
def handle_cards (apiKey : String) (net : Network) (now : Int)
    (db : Store) (params : List (String × String)) :
    JVal × Nat × Store :=
  let ck := cardsCacheKey params
  let g := cache_get db ck now
  if jTruthyOpt g.1 = true then
    (jSetKey (g.1.getD .null) "_cached" (.bool true), 200, g.2)
  else
    cards_miss apiKey net now g.2 ck params

/-- Cards contributed by one response, as the source iterates them: the
`data` list of a 200-status response, nothing otherwise. -/
def respCards (resp : JVal × Nat) : List JVal :=
  if resp.2 = 200 then
    match jGet resp.1 "data" with
    | some (.arr cards) => cards
    | _ => []
  else []

/-- Concatenated card stream of all successful sub-queries, in the fixed
sub-query order. -/
def successCards (apiKey : String) (net : Network) : List JVal :=
  ((popularResponses apiKey net).map respCards).flatten

/-- First-seen-wins dedup of one flat card stream (the loop of
`handle_popular` run over the concatenation). -/
def dedupAll (cards : List JVal) : List JVal :=
  (cards.foldl dedupStep ([], [])).1

/-- Well-shapedness of one response for the popular aggregation: a
200-status response either lacks `data` or maps it to a list (a present
non-list `data` would make the source raise while iterating it). -/
def respOk (resp : JVal × Nat) : Bool :=
  if resp.2 = 200 then
    match jGet resp.1 "data" with
    | some (.arr _) => true
    | some _ => false
    | none => true
  else true

/-- Well-shapedness of the upstream for the popular aggregation. -/
def WellShapedPopular (apiKey : String) (net : Network) : Prop :=
  ∀ resp ∈ popularResponses apiKey net, respOk resp = true

instance (apiKey : String) (net : Network) :
    Decidable (WellShapedPopular apiKey net) :=
  inferInstanceAs
    (Decidable (∀ resp ∈ popularResponses apiKey net, respOk resp = true))

/-- Market price entry numeric, null, or absent (a truthy non-numeric
price would make the source's sort-key comparison raise). -/
def priceOk (c : JVal) : Bool :=
  match pyGet ((jGet c "prices").getD (.obj [])) "market" with
  | .num _ => true
  | .null => true
  | _ => false

/-- Fixture: a fresh small cache entry. -/
def sampleEntry : CacheEntry := ⟨.obj [("x", .num 1)], 0, 10⟩

/-- Fixture: a network where every call fails at transport level. -/
def failNet : Network := fun _ _ => .transportFail "timed out"

/-- Fixture: a network whose every response is an HTTP 404 whose error
body decodes to a JSON array. -/
def arrErrNet : Network := fun _ _ => .httpError 404 (.inl (.arr [.num 1]))

/-- Fixture: a network answering every call with an empty result list. -/
def okNet : Network :=
  fun _ _ => .success (.obj [("data", .arr [])]) none none none

/-- Fixture: a card with market price 10. -/
def cardTen : JVal :=
  .obj [("id", .str "a"), ("prices", .obj [("market", .num 10)])]

/-- Fixture: a card with a null market price. -/
def cardNull : JVal :=
  .obj [("id", .str "b"), ("prices", .obj [("market", .null)])]

/-- Fixture: a second card with market price 10. -/
def cardTenB : JVal :=
  .obj [("id", .str "c"), ("prices", .obj [("market", .num 10)])]

/-- Fixture: a store holding a fresh entry under the parameterless cards
key. -/
def hitStore : Store := [(cardsCacheKey [], ⟨.obj [("x", .num 1)], 0, 43200⟩)]

/-- Fixture: a store holding a fresh entry under the parameterless sets
key. -/
def hitStoreSets : Store :=
  [(setsCacheKey [], ⟨.obj [("x", .num 1)], 0, 86400⟩)]

/-- Fixture: another card with the same canonical identifier as
`cardTen` but different attributes. -/
def cardTenAlt : JVal :=
  .obj [("id", .str "a"), ("name", .str "other"),
        ("prices", .obj [("market", .num 5)])]

/-- Fixture: every query succeeds and returns the same two cards, the
first pair sharing one canonical identifier across all sub-queries. -/
def dupNet : Network := fun _ _ =>
  .success (.obj [("data", .arr [cardTen, cardTenAlt])]) none none none

/-- Fixture: the charizard sub-query fails at transport level, every
other one returns two cards. -/
def mixedNet : Network := fun _ q =>
  if q.lookup "search" = some "charizard" then .transportFail "down"
  else .success (.obj [("data", .arr [cardTen, cardNull])]) none none none

/-- The aggregate `handle_popular` builds when every sub-query fails: an
empty card list with total 0. -/
def emptyPopular : JVal :=
  .obj [("data", .arr []),
        ("metadata",
          .obj [("total", .num 0), ("count", .num 0),
                ("source", .str "curated_popular")])]

/-- Deleting a key from the store really removes it: a lookup in the
filtered table misses. -/
theorem lookup_filter_ne (db : Store) (key : String) :
    (db.filter (fun p => p.1 != key)).lookup key = none := by
  induction db with
  | nil => rfl
  | cons hd tl ih =>
    by_cases h : hd.1 = key
    · simpa [List.filter_cons, h] using ih
    · simp only [List.filter_cons, bne_iff_ne, ne_eq, h, not_false_iff,
        if_pos, List.lookup]
      have : (key == hd.1) = false := by
        simp [beq_eq_false_iff_ne]; exact fun hh => h hh.symm
      simp [this, ih]

/-- Deleting a present key from a table with unique keys removes exactly
one row. -/
theorem length_filter_ne_of_lookup (db : Store) (key : String)
    (e : CacheEntry) (hnd : (db.map Prod.fst).Nodup)
    (hl : db.lookup key = some e) :
    (db.filter (fun p => p.1 != key)).length + 1 = db.length := by
  induction db with
  | nil => simp [List.lookup] at hl
  | cons hd tl ih =>
    simp only [List.map_cons, List.nodup_cons] at hnd
    by_cases h : hd.1 = key
    · have hnotin : ∀ p ∈ tl, (p.1 != key) = true := by
        intro p hp
        have : p.1 ≠ hd.1 := fun he => hnd.1 (he ▸ List.mem_map_of_mem Prod.fst hp)
        simp [bne_iff_ne]
        exact fun hh => this (hh.trans h.symm)
      simp [List.filter_cons, h, List.filter_eq_self.mpr hnotin]
    · have hkb : (key == hd.1) = false := by
        simp [beq_eq_false_iff_ne]; exact fun hh => h hh.symm
      have hl' : tl.lookup key = some e := by
        simpa [List.lookup, hkb] using hl
      have := ih hnd.2 hl'
      simp only [List.filter_cons, bne_iff_ne, ne_eq, h, not_false_iff,
        if_pos, List.length_cons]
      omega

/-- C1: `cache_get` returns the stored payload exactly when an entry
exists and its elapsed age is at most its TTL; a missing key returns none
and leaves the store alone; a stale entry (age strictly above the TTL)
returns none, is deleted, and the entry count drops by one. -/
theorem cache_get_ttl_boundary (db : Store) (key : String) (now : Int)
    (hnd : (db.map Prod.fst).Nodup) :
    (db.lookup key = none → cache_get db key now = (none, db)) ∧
    (∀ e : CacheEntry, db.lookup key = some e →
      (now - e.created_at ≤ (e.ttl_seconds : Int) →
        cache_get db key now = (some e.data, db)) ∧
      ((e.ttl_seconds : Int) < now - e.created_at →
        (cache_get db key now).1 = none ∧
        ((cache_get db key now).2).lookup key = none ∧
        cache_entries (cache_get db key now).2 + 1 = cache_entries db)) := by
  refine ⟨fun hnone => ?_, fun e hsome => ⟨fun hfresh => ?_, fun hstale => ?_⟩⟩
  · simp [cache_get, hnone]
  · simp [cache_get, hsome, not_lt.mpr hfresh]
  · refine ⟨?_, ?_, ?_⟩
    · simp [cache_get, hsome, hstale]
    · simpa [cache_get, hsome, hstale] using lookup_filter_ne db key
    · simpa [cache_get, hsome, hstale, cache_entries] using
        length_filter_ne_of_lookup db key e hnd hsome

/-- Witness for C1 at a one-entry store: fresh at age exactly the TTL,
stale and deleted one second later. -/
theorem cache_get_ttl_boundary_witness :
    cache_get [("k", sampleEntry)] "k" 10 =
      (some sampleEntry.data, [("k", sampleEntry)]) ∧
    (cache_get [("k", sampleEntry)] "k" 11).1 = none ∧
    cache_entries (cache_get [("k", sampleEntry)] "k" 11).2 + 1 =
      cache_entries [("k", sampleEntry)] :=
  ⟨((cache_get_ttl_boundary [("k", sampleEntry)] "k" 10 (by decide)).2
      sampleEntry (by decide)).1 (by decide),
   (((cache_get_ttl_boundary [("k", sampleEntry)] "k" 11 (by decide)).2
      sampleEntry (by decide)).2 (by decide)).1,
   (((cache_get_ttl_boundary [("k", sampleEntry)] "k" 11 (by decide)).2
      sampleEntry (by decide)).2 (by decide)).2.2⟩

/-- C7: with no API key configured, `api_fetch` returns the
missing-credential error payload with status 500 and performs zero
network calls (the call count is the third component). -/
theorem api_fetch_missing_credential (net : Network) (endpoint : String)
    (params : List (String × String)) :
    api_fetch "" net endpoint params =
      (.obj [("error", .str "API key not configured")], 500, 0) := rfl

/-- Totality of the code-point lexicographic comparison. -/
theorem charListLe_total : ∀ a b : List Char,
    charListLe a b = true ∨ charListLe b a = true
  | [], _ => Or.inl rfl
  | _ :: _, [] => Or.inr rfl
  | a :: as, b :: bs => by
    by_cases h1 : a < b
    · left; simp [charListLe, h1]
    · by_cases h2 : b < a
      · right; simp [charListLe, h2]
      · rcases charListLe_total as bs with h | h
        · left; simp [charListLe, h1, h2, h]
        · right; simp [charListLe, h1, h2, h]

/-- Transitivity of the code-point lexicographic comparison. -/
theorem charListLe_trans : ∀ a b c : List Char,
    charListLe a b = true → charListLe b c = true → charListLe a c = true
  | [], _, _, _, _ => rfl
  | _ :: _, [], _, h1, _ => by simp [charListLe] at h1
  | _ :: _, _ :: _, [], _, h2 => by simp [charListLe] at h2
  | a :: as, b :: bs, c :: cs, h1, h2 => by
    by_cases hab : a < b
    · by_cases hbc : b < c
      · simp [charListLe, lt_trans hab hbc]
      · by_cases hcb : c < b
        · simp [charListLe, hbc, hcb] at h2
        · have hbceq : b = c :=
            le_antisymm (le_of_not_lt hcb) (le_of_not_lt hbc)
          subst hbceq
          simp [charListLe, hab]
    · by_cases hba : b < a
      · simp [charListLe, hab, hba] at h1
      · have habeq : a = b :=
          le_antisymm (le_of_not_lt hba) (le_of_not_lt hab)
        subst habeq
        have h1' : charListLe as bs = true := by
          simpa [charListLe, lt_irrefl] using h1
        by_cases hac : a < c
        · simp [charListLe, hac]
        · by_cases hca : c < a
          · simp [charListLe, hac, hca] at h2
          · have haceq : a = c :=
              le_antisymm (le_of_not_lt hca) (le_of_not_lt hac)
            subst haceq
            have h2' : charListLe bs cs = true := by
              simpa [charListLe, lt_irrefl] using h2
            simpa [charListLe, lt_irrefl] using
              charListLe_trans as bs cs h1' h2'

/-- Antisymmetry of the code-point lexicographic comparison. -/
theorem charListLe_antisymm : ∀ a b : List Char,
    charListLe a b = true → charListLe b a = true → a = b
  | [], [], _, _ => rfl
  | [], _ :: _, _, h2 => by simp [charListLe] at h2
  | _ :: _, [], h1, _ => by simp [charListLe] at h1
  | a :: as, b :: bs, h1, h2 => by
    by_cases hab : a < b
    · simp [charListLe, hab, asymm hab] at h2
    · by_cases hba : b < a
      · simp [charListLe, hab, hba] at h1
      · have habeq : a = b :=
          le_antisymm (le_of_not_lt hba) (le_of_not_lt hab)
        subst habeq
        have h1' : charListLe as bs = true := by
          simpa [charListLe, lt_irrefl] using h1
        have h2' : charListLe bs as = true := by
          simpa [charListLe, lt_irrefl] using h2
        rw [charListLe_antisymm as bs h1' h2']

/-- Antisymmetry of the modelled Python string order. -/
theorem strLe_antisymm (a b : String) (h1 : strLe a b = true)
    (h2 : strLe b a = true) : a = b := by
  cases a; cases b
  exact congrArg String.mk (charListLe_antisymm _ _ h1 h2)

/-- Canonicalization is invariant under permutation of a mapping with
unique keys: the stable key-sorts of two permuted entry lists coincide. -/
theorem paramsSorted_perm_eq (p1 p2 : List (String × String))
    (hperm : p1.Perm p2) (hnd : (p1.map Prod.fst).Nodup) :
    paramsSorted p1 = paramsSorted p2 := by
  classical
  haveI : IsTotal (String × String) keyRel :=
    ⟨fun a b => charListLe_total a.1.data b.1.data⟩
  haveI : IsTrans (String × String) keyRel :=
    ⟨fun a b c => charListLe_trans a.1.data b.1.data c.1.data⟩
  haveI : IsAntisymm (String × String) keyRelS :=
    ⟨fun a b h h' => absurd (strLe_antisymm a.1 b.1 h.1 h'.1) h.2⟩
  have hs1 : (paramsSorted p1).Pairwise keyRel :=
    List.sorted_insertionSort keyRel p1
  have hs2 : (paramsSorted p2).Pairwise keyRel :=
    List.sorted_insertionSort keyRel p2
  have hp1 : (paramsSorted p1).Perm p1 := List.perm_insertionSort keyRel p1
  have hp2 : (paramsSorted p2).Perm p2 := List.perm_insertionSort keyRel p2
  have hnd2 : (p2.map Prod.fst).Nodup := ((hperm.map Prod.fst).nodup_iff).mp hnd
  have hne1 : (paramsSorted p1).Pairwise fun a b => a.1 ≠ b.1 :=
    List.pairwise_map.mp ((hp1.map Prod.fst).nodup_iff.mpr hnd)
  have hne2 : (paramsSorted p2).Pairwise fun a b => a.1 ≠ b.1 :=
    List.pairwise_map.mp ((hp2.map Prod.fst).nodup_iff.mpr hnd2)
  have hss1 : (paramsSorted p1).Sorted keyRelS := hs1.and hne1
  have hss2 : (paramsSorted p2).Sorted keyRelS := hs2.and hne2
  exact List.eq_of_perm_of_sorted ((hp1.trans hperm).trans hp2.symm) hss1 hss2

/-- C4: the cache keys `handle_cards` and `handle_sets` derive are
invariant under permutation of the parameter mapping's entries: two
mappings with the same key-value pairs (keys unique, as in a Python dict)
yield identical keys. -/
theorem cacheKey_perm_invariant (p1 p2 : List (String × String))
    (hperm : p1.Perm p2) (hnd : (p1.map Prod.fst).Nodup) :
    cardsCacheKey p1 = cardsCacheKey p2 ∧
    setsCacheKey p1 = setsCacheKey p2 := by
  have h := paramsSorted_perm_eq p1 p2 hperm hnd
  constructor <;> simp [cardsCacheKey, setsCacheKey, jsonDumpsParams, h]

/-- Witness for C4: two insertion orders of the same two-entry mapping
give the same cards key and the same sets key. -/
theorem cacheKey_perm_invariant_witness :
    cardsCacheKey [("a", "1"), ("b", "2")] =
      cardsCacheKey [("b", "2"), ("a", "1")] ∧
    setsCacheKey [("a", "1"), ("b", "2")] =
      setsCacheKey [("b", "2"), ("a", "1")] :=
  cacheKey_perm_invariant [("a", "1"), ("b", "2")] [("b", "2"), ("a", "1")]
    (by decide) (by decide)

/-- Running the dedup loop keeps only cards whose canonical identifier
matches a given identifier if they are the first such card of the stream
and the identifier was not already seen. -/
theorem dedup_fold_filter (cid : JVal) (hcid : jTruthy cid = true) :
    ∀ (cards A S : List JVal),
      ((cards.foldl dedupStep (A, S)).1.filter
          (fun d => canonicalId d == cid)) =
        A.filter (fun d => canonicalId d == cid) ++
          (if cid ∈ S then []
           else ((cards.find? (fun c => canonicalId c == cid)).toList))
  | [], A, S => by
    by_cases h : cid ∈ S <;> simp [h]
  | c :: rest, A, S => by
    rw [List.foldl_cons]
    by_cases hc : jTruthy (canonicalId c) = true ∧ canonicalId c ∉ S
    · rw [show dedupStep (A, S) c = (A ++ [c], canonicalId c :: S) by
        simp [dedupStep, hc]]
      rw [dedup_fold_filter cid hcid rest (A ++ [c]) (canonicalId c :: S)]
      by_cases hcc : canonicalId c = cid
      · subst hcc
        have hmem : canonicalId c ∈ canonicalId c :: S := List.mem_cons_self _ _
        simp [List.filter_append, hc.2, List.find?_cons, hmem]
      · have hne : (canonicalId c == cid) = false := by
          simp [hcc]
        have hmem : (cid ∈ canonicalId c :: S) ↔ cid ∈ S := by
          simp [List.mem_cons]
          intro h; exact absurd h.symm hcc
        by_cases hS : cid ∈ S
        · simp [List.filter_append, hne, hmem.mpr hS, hS]
        · simp [List.filter_append, hne, hS, hmem, List.find?_cons]
    · rw [show dedupStep (A, S) c = (A, S) by simp [dedupStep, hc]]
      rw [dedup_fold_filter cid hcid rest A S]
      rcases not_and_or.mp hc with hft | hin
    -- the card has a falsy identifier, or its identifier was already seen
      · have hne : (canonicalId c == cid) = false := by
          simp
          intro h; rw [h] at hft; exact hft hcid
        simp [List.find?_cons, hne]
      · have hin' : canonicalId c ∈ S := not_not.mp hin
        by_cases hcc : canonicalId c = cid
        · subst hcc
          simp [hin']
        · have hne : (canonicalId c == cid) = false := by simp [hcc]
          simp [List.find?_cons, hne]

/-- Every card the dedup loop accumulates has a truthy canonical
identifier. -/
theorem dedup_fold_truthy :
    ∀ (cards A S : List JVal),
      (∀ c ∈ A, jTruthy (canonicalId c) = true) →
      ∀ c ∈ (cards.foldl dedupStep (A, S)).1,
        jTruthy (canonicalId c) = true
  | [], A, S, hA => hA
  | c :: rest, A, S, hA => by
    rw [List.foldl_cons]
    by_cases hc : jTruthy (canonicalId c) = true ∧ canonicalId c ∉ S
    · rw [show dedupStep (A, S) c = (A ++ [c], canonicalId c :: S) by
        simp [dedupStep, hc]]
      refine dedup_fold_truthy rest (A ++ [c]) (canonicalId c :: S) ?_
      intro d hd
      rcases List.mem_append.mp hd with h | h
      · exact hA d h
      · rw [List.mem_singleton.mp h]; exact hc.1
    · rw [show dedupStep (A, S) c = (A, S) by simp [dedupStep, hc]]
      exact dedup_fold_truthy rest A S hA

/-- One response's contribution to the loop state is the fold of its card
list. -/
theorem collectResp_eq (acc : List JVal × List JVal) (resp : JVal × Nat) :
    collectResp acc resp = (respCards resp).foldl dedupStep acc := by
  unfold collectResp respCards
  by_cases h : resp.2 = 200
  · simp only [h, if_pos]
    cases hj : jGet resp.1 "data" with
    | none => simp
    | some v => cases v <;> simp
  · simp [h]

/-- The nested per-response loop equals the dedup fold of the flattened
success stream. -/
theorem popularAccum_eq_stream (apiKey : String) (net : Network) :
    popularAccum apiKey net =
      (successCards apiKey net).foldl dedupStep ([], []) := by
  unfold popularAccum successCards
  generalize popularResponses apiKey net = rs
  suffices h : ∀ (rs : List (JVal × Nat)) (acc : List JVal × List JVal),
      rs.foldl collectResp acc =
        ((rs.map respCards).flatten).foldl dedupStep acc from h rs ([], [])
  intro rs
  induction rs with
  | nil => intro acc; rfl
  | cons r rest ih =>
    intro acc
    simp [List.foldl_append, collectResp_eq, ih]

/-- C2: the canonical identifier is `tcgPlayerId` falling back to `id`;
a card enters the accumulator only with a truthy identifier, and for any
identifier the accumulator holds exactly the first card of the whole
success stream (all sub-queries concatenated in list order) carrying it. -/
theorem popular_dedup_first_seen (apiKey : String) (net : Network) :
    (∀ card v, jGet card "tcgPlayerId" = some v → jTruthy v = true →
       canonicalId card = v) ∧
    (∀ card, jTruthy (pyGet card "tcgPlayerId") = false →
       canonicalId card = pyGet card "id") ∧
    (∀ c ∈ (popularAccum apiKey net).1, jTruthy (canonicalId c) = true) ∧
    (∀ cid : JVal, jTruthy cid = true →
       (popularAccum apiKey net).1.filter (fun d => canonicalId d == cid) =
         ((successCards apiKey net).find?
            (fun c => canonicalId c == cid)).toList) := by
  refine ⟨?_, ?_, ?_, ?_⟩
  · intro card v hv htr
    simp [canonicalId, pyGet, hv, pyOr, htr]
  · intro card htr
    simp [canonicalId, pyOr, htr]
  · rw [popularAccum_eq_stream]
    exact dedup_fold_truthy (successCards apiKey net) [] [] (by simp)
  · intro cid hcid
    rw [popularAccum_eq_stream]
    simpa using dedup_fold_filter cid hcid (successCards apiKey net) [] []

/-- Totality of the stable descending sort relation. -/
theorem descRel_total (key : JVal → Rat) (a b : Nat × JVal) :
    descRel key a b ∨ descRel key b a := by
  rcases lt_trichotomy (key a.2) (key b.2) with h | h | h
  · right; left; exact h
  · rcases Nat.le_total a.1 b.1 with hn | hn
    · left; right; exact ⟨h, hn⟩
    · right; right; exact ⟨h.symm, hn⟩
  · left; left; exact h

/-- Transitivity of the stable descending sort relation. -/
theorem descRel_trans (key : JVal → Rat) (a b c : Nat × JVal)
    (h1 : descRel key a b) (h2 : descRel key b c) : descRel key a c := by
  rcases h1 with h1 | ⟨h1e, h1i⟩ <;> rcases h2 with h2 | ⟨h2e, h2i⟩
  · left; exact lt_trans h2 h1
  · left; exact h2e ▸ h1
  · left; rw [h1e]; exact h2
  · right; exact ⟨h1e.trans h2e, le_trans h1i h2i⟩

/-- Filtering commutes with stripping the position annotations. -/
theorem filter_map_snd (p : JVal → Bool) :
    ∀ L : List (Nat × JVal),
      (L.map Prod.snd).filter p = (L.filter (fun x => p x.2)).map Prod.snd
  | [] => rfl
  | x :: L => by
    by_cases h : p x.2
    · simp [List.filter_cons, h, filter_map_snd p L]
    · simp [List.filter_cons, h, filter_map_snd p L]

/-- The sorted output is a permutation of the input. -/
theorem pySortDesc_perm (key : JVal → Rat) (l : List JVal) :
    (pySortDesc key l).Perm l := by
  unfold pySortDesc
  have h := (List.perm_insertionSort (descRel key) l.enum).map Prod.snd
  rwa [List.enum_map_snd] at h

/-- The sorted output has non-increasing keys. -/
theorem pySortDesc_sorted (key : JVal → Rat) (l : List JVal) :
    (pySortDesc key l).Pairwise (fun a b => key b ≤ key a) := by
  classical
  haveI : IsTotal (Nat × JVal) (descRel key) := ⟨descRel_total key⟩
  haveI : IsTrans (Nat × JVal) (descRel key) :=
    ⟨fun a b c => descRel_trans key a b c⟩
  unfold pySortDesc
  refine List.pairwise_map.mpr ?_
  refine (List.sorted_insertionSort (descRel key) l.enum).imp ?_
  intro a b hab
  rcases hab with h | h
  · exact le_of_lt h
  · exact le_of_eq h.1.symm

/-- Stability: the sorted output restricted to any single key value is
the input restricted to that key value, in the same order. -/
theorem pySortDesc_filter_eq (key : JVal → Rat) (l : List JVal) (q : Rat) :
    (pySortDesc key l).filter (fun c => key c == q) =
      l.filter (fun c => key c == q) := by
  classical
  haveI : IsTotal (Nat × JVal) (descRel key) := ⟨descRel_total key⟩
  haveI : IsTrans (Nat × JVal) (descRel key) :=
    ⟨fun a b c => descRel_trans key a b c⟩
  haveI : IsAntisymm (Nat × JVal) idxLt :=
    ⟨fun a b h h' => absurd h (Nat.lt_asymm h')⟩
  unfold pySortDesc
  rw [filter_map_snd]
  have henum : l.enum.Pairwise idxLt := by
    have h0 : (l.enum.map Prod.fst).Pairwise (· < ·) := by
      rw [List.enum_map_fst]; exact List.pairwise_lt_range _
    exact (List.pairwise_map (f := Prod.fst)).mp h0
  have hstep :
      (List.insertionSort (descRel key) l.enum).filter
          (fun x => key x.2 == q) =
        l.enum.filter (fun x => key x.2 == q) := by
    apply List.eq_of_perm_of_sorted (r := idxLt)
    · exact (List.perm_insertionSort (descRel key) l.enum).filter _
    · have h1 :
          ((List.insertionSort (descRel key) l.enum).filter
              (fun x => key x.2 == q)).Pairwise (descRel key) :=
        (List.sorted_insertionSort (descRel key) l.enum).filter _
      have hnd0 :
          ((l.enum.filter (fun x => key x.2 == q)).map Prod.fst).Nodup := by
        have hr : (l.enum.map Prod.fst).Nodup := by
          rw [List.enum_map_fst]; exact List.nodup_range _
        exact hr.sublist ((List.filter_sublist _).map Prod.fst)
      have hnd :
          (((List.insertionSort (descRel key) l.enum).filter
              (fun x => key x.2 == q)).map Prod.fst).Nodup :=
        ((((List.perm_insertionSort (descRel key) l.enum).filter
            _).map Prod.fst).nodup_iff).mpr hnd0
      have hne :
          ((List.insertionSort (descRel key) l.enum).filter
              (fun x => key x.2 == q)).Pairwise
            (fun a b => a.1 ≠ b.1) :=
        List.pairwise_map.mp hnd
      refine ((h1.and hne).imp_of_mem ?_)
      intro a b ha hb hab
      have hqa : key a.2 = q := by
        simpa using (List.mem_filter.mp ha).2
      have hqb : key b.2 = q := by
        simpa using (List.mem_filter.mp hb).2
      rcases hab.1 with h | h
      · rw [hqa, hqb] at h; exact absurd h (lt_irrefl q)
      · exact lt_of_le_of_ne h.2 hab.2
    · exact henum.filter _
  rw [hstep]
  have hfin := filter_map_snd (fun c => key c == q) l.enum
  rw [List.enum_map_snd] at hfin
  exact hfin.symm

/-- C3: the aggregated card list is sorted by the `market` price variant
descending with missing or null prices as zero, the sort is a stable
permutation (cards with equal sort price keep their accumulator order),
and the `[10, null, 10]` example sorts to first-ten, second-ten,
null-as-zero. -/
theorem popular_sort_stable (l : List JVal)
    (_hp : ∀ c ∈ l, priceOk c = true) :
    (pySortDesc sortPrice l).Perm l ∧
    (pySortDesc sortPrice l).Pairwise
      (fun a b => sortPrice b ≤ sortPrice a) ∧
    (∀ q : Rat,
      (pySortDesc sortPrice l).filter (fun c => sortPrice c == q) =
        l.filter (fun c => sortPrice c == q)) ∧
    (∀ c, pyGet ((jGet c "prices").getD (.obj [])) "market" = .null →
       sortPrice c = 0) ∧
    pySortDesc sortPrice [cardTen, cardNull, cardTenB] =
      [cardTen, cardTenB, cardNull] := by
  refine ⟨pySortDesc_perm _ _, pySortDesc_sorted _ _,
    fun q => pySortDesc_filter_eq _ _ q, ?_, by decide⟩
  intro c h
  simp [sortPrice, h]

/-- Witness for C3 on the three-card example list. -/
theorem popular_sort_stable_witness :
    (∀ c ∈ [cardTen, cardNull, cardTenB], priceOk c = true) ∧
    pySortDesc sortPrice [cardTen, cardNull, cardTenB] =
      [cardTen, cardTenB, cardNull] :=
  ⟨by decide,
   (popular_sort_stable [cardTen, cardNull, cardTenB] (by decide)).2.2.2.2⟩

/-- Witness for C2: with every sub-query returning the same two cards
that share the identifier `"a"`, the accumulator keeps exactly the first
stream occurrence. -/
theorem popular_dedup_first_seen_witness :
    jTruthy (.str "a") = true ∧
    (popularAccum "k" dupNet).1.filter
        (fun d => canonicalId d == JVal.str "a") =
      ((successCards "k" dupNet).find?
         (fun c => canonicalId c == JVal.str "a")).toList :=
  ⟨by decide, (popular_dedup_first_seen "k" dupNet).2.2.2 (.str "a") (by decide)⟩

/-- The loop state projected by `popularAccum` equals the flat dedup of
the success stream. -/
theorem popularAccum_fst (apiKey : String) (net : Network) :
    (popularAccum apiKey net).1 = dedupAll (successCards apiKey net) := by
  rw [popularAccum_eq_stream]; rfl

/-- C5: the composite tolerates partial failure — a sub-query whose
fetch fails or returns a non-success status contributes no cards, the
payload's `data` is exactly the sorted dedup of the successful
sub-queries' concatenated cards, the reported total is that list's
length, the source tag is `curated_popular`, and the status is 200. -/
theorem popular_partial_failure (apiKey : String) (net : Network)
    (now : Int) (db : Store)
    (hmiss : jTruthyOpt (cache_get db "popular:v2" now).1 = false)
    (_hws : WellShapedPopular apiKey net) :
    (∀ resp ∈ popularResponses apiKey net, resp.2 ≠ 200 →
       respCards resp = []) ∧
    (handle_popular apiKey net now db).2.1 = 200 ∧
    jGet (handle_popular apiKey net now db).1 "data" =
      some (.arr (pySortDesc sortPrice
        (dedupAll (successCards apiKey net)))) ∧
    jGet (pyGet (handle_popular apiKey net now db).1 "metadata") "total" =
      some (.num ((pySortDesc sortPrice
        (dedupAll (successCards apiKey net))).length : Rat)) ∧
    jGet (pyGet (handle_popular apiKey net now db).1 "metadata") "source" =
      some (.str "curated_popular") := by
  have hout : handle_popular apiKey net now db =
      (popular_result apiKey net, 200,
        cache_set (cache_get db "popular:v2" now).2 "popular:v2"
          (popular_result apiKey net) TTL_POPULAR now) := by
    unfold handle_popular
    simp only [hmiss, Bool.false_eq_true, if_false]
    rfl
  have hres : popular_result apiKey net =
      .obj [("data", .arr (pySortDesc sortPrice
              (dedupAll (successCards apiKey net)))),
            ("metadata",
              .obj [("total", .num ((pySortDesc sortPrice
                      (dedupAll (successCards apiKey net))).length : Rat)),
                    ("count", .num ((pySortDesc sortPrice
                      (dedupAll (successCards apiKey net))).length : Rat)),
                    ("source", .str "curated_popular")])] := by
    unfold popular_result
    rw [popularAccum_fst]
  refine ⟨?_, ?_, ?_, ?_, ?_⟩
  · intro resp _ h
    unfold respCards
    simp [h]
  · rw [hout]
  · rw [hout]; simp only; rw [hres]; rfl
  · rw [hout]; simp only; rw [hres]; rfl
  · rw [hout]; simp only; rw [hres]; rfl

/-- Witness for C5: one of the ten sub-queries fails at transport level,
the rest succeed; the aggregate is still served with status 200 and the
sorted dedup of the successful contributions. -/
theorem popular_partial_failure_witness :
    jTruthyOpt (cache_get [] "popular:v2" 0).1 = false ∧
    WellShapedPopular "k" mixedNet ∧
    (handle_popular "k" mixedNet 0 []).2.1 = 200 ∧
    jGet (handle_popular "k" mixedNet 0 []).1 "data" =
      some (.arr (pySortDesc sortPrice (dedupAll (successCards "k" mixedNet)))) :=
  ⟨by decide, by decide,
   (popular_partial_failure "k" mixedNet 0 [] (by decide) (by decide)).2.1,
   (popular_partial_failure "k" mixedNet 0 [] (by decide) (by decide)).2.2.1⟩

/-- A freshly written key is found with exactly the written payload,
timestamp and TTL. -/
theorem lookup_cache_set (db : Store) (key : String) (data : JVal)
    (ttl : Nat) (now : Int) :
    (cache_set db key data ttl now).lookup key = some ⟨data, now, ttl⟩ := by
  simp [cache_set, List.lookup]

/-- C6: the TTL constants are 24h / 12h / 6h / 24h, and on a miss
followed by a successful fetch each handler writes its entry with the TTL
of its query class — `handle_cards` selecting 6h exactly when
`includeHistory` is `"true"` and 12h otherwise. -/
theorem ttl_selection :
    TTL_SETS = 86400 ∧ TTL_CARDS = 43200 ∧ TTL_DETAIL = 21600 ∧
    TTL_POPULAR = 86400 ∧
    (∀ (apiKey : String) (net : Network) (now : Int) (db : Store)
       (params : List (String × String)),
      jTruthyOpt (cache_get db (setsCacheKey params) now).1 = false →
      (api_fetch apiKey net "sets" params).2.1 = 200 →
      ((handle_sets apiKey net now db params).2.2).lookup
          (setsCacheKey params) =
        some ⟨(api_fetch apiKey net "sets" params).1, now, 86400⟩) ∧
    (∀ (apiKey : String) (net : Network) (now : Int) (db : Store)
       (params : List (String × String)),
      jTruthyOpt (cache_get db (cardsCacheKey params) now).1 = false →
      (api_fetch apiKey net "cards" params).2.1 = 200 →
      paramGetD params "includeHistory" "false" = "true" →
      ((handle_cards apiKey net now db params).2.2).lookup
          (cardsCacheKey params) =
        some ⟨(api_fetch apiKey net "cards" params).1, now, 21600⟩) ∧
    (∀ (apiKey : String) (net : Network) (now : Int) (db : Store)
       (params : List (String × String)),
      jTruthyOpt (cache_get db (cardsCacheKey params) now).1 = false →
      (api_fetch apiKey net "cards" params).2.1 = 200 →
      paramGetD params "includeHistory" "false" ≠ "true" →
      ((handle_cards apiKey net now db params).2.2).lookup
          (cardsCacheKey params) =
        some ⟨(api_fetch apiKey net "cards" params).1, now, 43200⟩) ∧
    (∀ (apiKey : String) (net : Network) (now : Int) (db : Store),
      jTruthyOpt (cache_get db "popular:v2" now).1 = false →
      ((handle_popular apiKey net now db).2.2).lookup "popular:v2" =
        some ⟨popular_result apiKey net, now, 86400⟩) := by
  refine ⟨rfl, rfl, rfl, rfl, ?_, ?_, ?_, ?_⟩
  · intro apiKey net now db params hmiss hst
    unfold handle_sets
    simp only [hmiss, Bool.false_eq_true, if_false]
    unfold sets_miss
    simp only [hst, if_pos]
    exact lookup_cache_set _ _ _ _ _
  · intro apiKey net now db params hmiss hst hh
    unfold handle_cards
    simp only [hmiss, Bool.false_eq_true, if_false]
    unfold cards_miss
    simp only [hst, if_pos]
    have hts : cardsTtl params = 21600 := by
      unfold cardsTtl
      rw [if_pos hh]
      rfl
    rw [hts]
    exact lookup_cache_set _ _ _ _ _
  · intro apiKey net now db params hmiss hst hh
    unfold handle_cards
    simp only [hmiss, Bool.false_eq_true, if_false]
    unfold cards_miss
    simp only [hst, if_pos]
    have hts : cardsTtl params = 43200 := by
      unfold cardsTtl
      rw [if_neg hh]
      rfl
    rw [hts]
    exact lookup_cache_set _ _ _ _ _
  · intro apiKey net now db hmiss
    unfold handle_popular
    simp only [hmiss, Bool.false_eq_true, if_false]
    unfold popular_miss
    exact lookup_cache_set _ _ _ _ _

/-- Witness for C6 at concrete inputs: identical empty stores, the same
upstream, history requested versus not. -/
theorem ttl_selection_witness :
    ((handle_sets "k" okNet 0 [] []).2.2).lookup (setsCacheKey []) =
      some ⟨(api_fetch "k" okNet "sets" []).1, 0, 86400⟩ ∧
    ((handle_cards "k" okNet 0 [] [("includeHistory", "true")]).2.2).lookup
        (cardsCacheKey [("includeHistory", "true")]) =
      some ⟨(api_fetch "k" okNet "cards" [("includeHistory", "true")]).1,
            0, 21600⟩ ∧
    ((handle_cards "k" okNet 0 [] []).2.2).lookup (cardsCacheKey []) =
      some ⟨(api_fetch "k" okNet "cards" []).1, 0, 43200⟩ ∧
    ((handle_popular "k" okNet 0 []).2.2).lookup "popular:v2" =
      some ⟨popular_result "k" okNet, 0, 86400⟩ :=
  ⟨ttl_selection.2.2.2.2.1 "k" okNet 0 [] [] (by decide) (by decide),
   ttl_selection.2.2.2.2.2.1 "k" okNet 0 [] [("includeHistory", "true")]
     (by decide) (by decide) (by decide),
   ttl_selection.2.2.2.2.2.2.1 "k" okNet 0 [] [] (by decide) (by decide)
     (by decide),
   ttl_selection.2.2.2.2.2.2.2 "k" okNet 0 [] (by decide)⟩

/-- C9: on a miss, a non-success fetch writes nothing — the handler
returns the upstream's payload with its original status and leaves the
store exactly as the lookup left it (fully unchanged when no entry
existed). -/
theorem simple_no_write_on_error :
    (∀ (apiKey : String) (net : Network) (now : Int) (db : Store)
       (params : List (String × String)),
      jTruthyOpt (cache_get db (cardsCacheKey params) now).1 = false →
      (api_fetch apiKey net "cards" params).2.1 ≠ 200 →
      handle_cards apiKey net now db params =
        ((api_fetch apiKey net "cards" params).1,
         (api_fetch apiKey net "cards" params).2.1,
         (cache_get db (cardsCacheKey params) now).2)) ∧
    (∀ (apiKey : String) (net : Network) (now : Int) (db : Store)
       (params : List (String × String)),
      db.lookup (cardsCacheKey params) = none →
      (api_fetch apiKey net "cards" params).2.1 ≠ 200 →
      (handle_cards apiKey net now db params).2.2 = db) ∧
    (∀ (apiKey : String) (net : Network) (now : Int) (db : Store)
       (params : List (String × String)),
      jTruthyOpt (cache_get db (setsCacheKey params) now).1 = false →
      (api_fetch apiKey net "sets" params).2.1 ≠ 200 →
      handle_sets apiKey net now db params =
        ((api_fetch apiKey net "sets" params).1,
         (api_fetch apiKey net "sets" params).2.1,
         (cache_get db (setsCacheKey params) now).2)) ∧
    (∀ (apiKey : String) (net : Network) (now : Int) (db : Store)
       (params : List (String × String)),
      db.lookup (setsCacheKey params) = none →
      (api_fetch apiKey net "sets" params).2.1 ≠ 200 →
      (handle_sets apiKey net now db params).2.2 = db) := by
  have hcards : ∀ (apiKey : String) (net : Network) (now : Int)
      (db : Store) (params : List (String × String)),
      jTruthyOpt (cache_get db (cardsCacheKey params) now).1 = false →
      (api_fetch apiKey net "cards" params).2.1 ≠ 200 →
      handle_cards apiKey net now db params =
        ((api_fetch apiKey net "cards" params).1,
         (api_fetch apiKey net "cards" params).2.1,
         (cache_get db (cardsCacheKey params) now).2) := by
    intro apiKey net now db params hmiss hst
    unfold handle_cards
    simp only [hmiss, Bool.false_eq_true, if_false]
    unfold cards_miss
    simp only [hst, if_false, if_neg hst]
  have hsets : ∀ (apiKey : String) (net : Network) (now : Int)
      (db : Store) (params : List (String × String)),
      jTruthyOpt (cache_get db (setsCacheKey params) now).1 = false →
      (api_fetch apiKey net "sets" params).2.1 ≠ 200 →
      handle_sets apiKey net now db params =
        ((api_fetch apiKey net "sets" params).1,
         (api_fetch apiKey net "sets" params).2.1,
         (cache_get db (setsCacheKey params) now).2) := by
    intro apiKey net now db params hmiss hst
    unfold handle_sets
    simp only [hmiss, Bool.false_eq_true, if_false]
    unfold sets_miss
    simp only [hst, if_false, if_neg hst]
  refine ⟨hcards, ?_, hsets, ?_⟩
  · intro apiKey net now db params hnone hst
    have hg : cache_get db (cardsCacheKey params) now = (none, db) := by
      simp [cache_get, hnone]
    rw [hcards apiKey net now db params (by rw [hg]; rfl) hst, hg]
  · intro apiKey net now db params hnone hst
    have hg : cache_get db (setsCacheKey params) now = (none, db) := by
      simp [cache_get, hnone]
    rw [hsets apiKey net now db params (by rw [hg]; rfl) hst, hg]

/-- Witness for C9: a transport failure on an empty store returns the
error payload with status 500 and leaves the store empty. -/
theorem simple_no_write_on_error_witness :
    handle_cards "k" failNet 0 [] [] =
      ((api_fetch "k" failNet "cards" []).1,
       (api_fetch "k" failNet "cards" []).2.1, []) ∧
    (handle_sets "k" failNet 0 [] []).2.2 = [] :=
  ⟨by
    have h := simple_no_write_on_error.1 "k" failNet 0 [] [] (by decide)
      (by decide)
    simpa using h,
   by
    have h := simple_no_write_on_error.2.2.2 "k" failNet 0 [] [] (by decide)
      (by decide)
    simpa using h⟩

/-- A non-empty dict payload is truthy. -/
theorem jTruthy_obj (kvs : List (String × JVal)) (h : kvs ≠ []) :
    jTruthy (.obj kvs) = true := by
  simp [jTruthy, jFalsy, h]

/-- Looking up the assigned key after an in-place overwrite finds the new
value. -/
theorem lookup_map_replace (k : String) (v : JVal) :
    ∀ kvs : List (String × JVal), (kvs.lookup k).isSome →
      ((kvs.map (fun p => if p.1 = k then (k, v) else p)).lookup k) = some v
  | [], h => by simp [List.lookup] at h
  | (k1, v1) :: kvs, h => by
    by_cases hk : k1 = k
    · subst hk
      rw [List.map_cons]
      rw [show (if ((k1, v1) : String × JVal).1 = k1 then (k1, v) else
          (k1, v1)) = (k1, v) from if_pos rfl]
      simp [List.lookup]
    · have hkb : (k == k1) = false := by
        simp only [beq_eq_false_iff_ne, ne_eq]
        exact fun hh => hk hh.symm
      have htl : (kvs.lookup k).isSome := by
        simpa [List.lookup, hkb] using h
      rw [List.map_cons]
      rw [show (if ((k1, v1) : String × JVal).1 = k then (k, v) else
          (k1, v1)) = (k1, v1) from if_neg hk]
      simp [List.lookup, hkb, lookup_map_replace k v kvs htl]

/-- Looking up the assigned key after appending it finds the new value. -/
theorem lookup_append_last (k : String) (v : JVal) :
    ∀ kvs : List (String × JVal), kvs.lookup k = none →
      ((kvs ++ [(k, v)]).lookup k) = some v
  | [], _ => by simp [List.lookup]
  | (k1, v1) :: kvs, h => by
    by_cases hk : (k == k1) = true
    · simp [List.lookup, hk] at h
    · have hkb : (k == k1) = false := by
        simpa using hk
      have htl : kvs.lookup k = none := by
        simpa [List.lookup, hkb] using h
      simp [List.cons_append, List.lookup, hkb,
        lookup_append_last k v kvs htl]

/-- `d[k] = v` makes `d.get(k)` return `v`. -/
theorem lookup_setPair (kvs : List (String × JVal)) (k : String)
    (v : JVal) : (setPair kvs k v).lookup k = some v := by
  unfold setPair
  by_cases h : (kvs.lookup k).isSome
  · rw [if_pos h]
    exact lookup_map_replace k v kvs h
  · rw [if_neg h]
    exact lookup_append_last k v kvs (Option.not_isSome_iff_eq_none.mp h)

/-- Hit path of `handle_cards`: a fresh, truthy dict entry is returned
tagged `_cached` with status 200, the store as the lookup left it. -/
theorem handle_cards_hit (apiKey : String) (net : Network) (now : Int)
    (db : Store) (params : List (String × String))
    (kvs : List (String × JVal)) (hne : kvs ≠ [])
    (hget : (cache_get db (cardsCacheKey params) now).1 = some (.obj kvs)) :
    handle_cards apiKey net now db params =
      (.obj (setPair kvs "_cached" (.bool true)), 200,
        (cache_get db (cardsCacheKey params) now).2) := by
  unfold handle_cards
  simp only [hget, jTruthyOpt, jTruthy_obj kvs hne, if_pos]
  rfl

/-- Hit path of `handle_popular`. -/
theorem handle_popular_hit (apiKey : String) (net : Network) (now : Int)
    (db : Store) (kvs : List (String × JVal)) (hne : kvs ≠ [])
    (hget : (cache_get db "popular:v2" now).1 = some (.obj kvs)) :
    handle_popular apiKey net now db =
      (.obj (setPair kvs "_cached" (.bool true)), 200,
        (cache_get db "popular:v2" now).2) := by
  unfold handle_popular
  simp only [hget, jTruthyOpt, jTruthy_obj kvs hne, if_pos]
  rfl

/-- With no API key the aggregate is empty: every sub-query
short-circuits with status 500. -/
theorem popular_result_no_key (net : Network) :
    popular_result "" net = emptyPopular := rfl

/-- C10 (implicit): the composite caches its aggregate unconditionally
on a miss — with no credential every sub-query fails, yet the empty
aggregate (total 0) is written under the singleton key with the 24h TTL,
returned with status 200, and a later request within 24h is served from
the cache, tagged `_cached`, still with status 200. -/
theorem popular_unconditional_write (net : Network) (now t : Int)
    (db : Store)
    (hmiss : jTruthyOpt (cache_get db "popular:v2" now).1 = false)
    (hfresh : t - now ≤ (86400 : Int)) :
    (handle_popular "" net now db).2.1 = 200 ∧
    (handle_popular "" net now db).1 = emptyPopular ∧
    ((handle_popular "" net now db).2.2).lookup "popular:v2" =
      some ⟨emptyPopular, now, 86400⟩ ∧
    cache_get ((handle_popular "" net now db).2.2) "popular:v2" t =
      (some emptyPopular, (handle_popular "" net now db).2.2) ∧
    (handle_popular "" net t ((handle_popular "" net now db).2.2)).1 =
      .obj (setPair [("data", .arr []),
        ("metadata",
          .obj [("total", .num 0), ("count", .num 0),
                ("source", .str "curated_popular")])] "_cached"
        (.bool true)) ∧
    (handle_popular "" net t ((handle_popular "" net now db).2.2)).2.1 =
      200 := by
  have hout : handle_popular "" net now db =
      (emptyPopular, 200,
        cache_set (cache_get db "popular:v2" now).2 "popular:v2"
          emptyPopular TTL_POPULAR now) := by
    unfold handle_popular
    simp only [hmiss, Bool.false_eq_true, if_false]
    unfold popular_miss
    rw [popular_result_no_key]
  have hlook : ((handle_popular "" net now db).2.2).lookup "popular:v2" =
      some ⟨emptyPopular, now, 86400⟩ := by
    rw [hout]
    exact lookup_cache_set _ _ _ _ _
  have hget2 : cache_get ((handle_popular "" net now db).2.2)
      "popular:v2" t =
      (some emptyPopular, (handle_popular "" net now db).2.2) := by
    unfold cache_get
    rw [hlook]
    simp only [not_lt.mpr (by omega : t - now ≤ ((86400 : Nat) : Int)),
      if_neg, not_lt, if_false]
  refine ⟨by rw [hout], by rw [hout], hlook, hget2, ?_, ?_⟩
  · rw [handle_popular_hit "" net t _
      [("data", .arr []),
       ("metadata",
         .obj [("total", .num 0), ("count", .num 0),
               ("source", .str "curated_popular")])]
      (by simp) (by rw [hget2]; rfl)]
  · rw [handle_popular_hit "" net t _
      [("data", .arr []),
       ("metadata",
         .obj [("total", .num 0), ("count", .num 0),
               ("source", .str "curated_popular")])]
      (by simp) (by rw [hget2]; rfl)]

/-- Witness for C10: empty store, no credential, served again 24h
later. -/
theorem popular_unconditional_write_witness :
    (handle_popular "" failNet 0 []).2.1 = 200 ∧
    (handle_popular "" failNet 0 []).1 = emptyPopular ∧
    ((handle_popular "" failNet 0 []).2.2).lookup "popular:v2" =
      some ⟨emptyPopular, 0, 86400⟩ ∧
    (handle_popular "" failNet 86400 ((handle_popular "" failNet 0 []).2.2)).2.1 =
      200 :=
  ⟨(popular_unconditional_write failNet 0 86400 [] (by decide) (by decide)).1,
   (popular_unconditional_write failNet 0 86400 [] (by decide)
     (by decide)).2.1,
   (popular_unconditional_write failNet 0 86400 [] (by decide)
     (by decide)).2.2.1,
   (popular_unconditional_write failNet 0 86400 [] (by decide)
     (by decide)).2.2.2.2.2⟩

/-- C8 counterexample: on a concrete cache hit the payload carries no
key named `cached` — the flag the code sets is named `_cached` — and on
a miss where the upstream 404 body decodes to a JSON array, the returned
payload is that array, not a mapping. -/
theorem facade_cached_flag_counterexample :
    (handle_cards "k" failNet 0 hitStore []).2.1 = 200 ∧
    jGet (handle_cards "k" failNet 0 hitStore []).1 "cached" = none ∧
    jGet (handle_cards "k" failNet 0 hitStore []).1 "_cached" =
      some (.bool true) ∧
    (handle_cards "k" arrErrNet 0 [] []).1 = .arr [.num 1] ∧
    (handle_cards "k" arrErrNet 0 [] []).2.1 = 404 := by decide

/-- Hit path of `handle_sets`: a fresh, truthy dict entry is returned
tagged `_cached` with status 200, the store as the lookup left it. -/
theorem handle_sets_hit (apiKey : String) (net : Network) (now : Int)
    (db : Store) (params : List (String × String))
    (kvs : List (String × JVal)) (hne : kvs ≠ [])
    (hget : (cache_get db (setsCacheKey params) now).1 = some (.obj kvs)) :
    handle_sets apiKey net now db params =
      (.obj (setPair kvs "_cached" (.bool true)), 200,
        (cache_get db (setsCacheKey params) now).2) := by
  unfold handle_sets
  simp only [hget, jTruthyOpt, jTruthy_obj kvs hne, if_pos]
  rfl

/-- Miss path of `handle_cards` forwards the fetched payload whatever the
status. -/
theorem handle_cards_miss_payload (apiKey : String) (net : Network)
    (now : Int) (db : Store) (params : List (String × String))
    (hmiss : jTruthyOpt (cache_get db (cardsCacheKey params) now).1 =
      false) :
    (handle_cards apiKey net now db params).1 =
      (api_fetch apiKey net "cards" params).1 := by
  unfold handle_cards
  simp only [hmiss, Bool.false_eq_true, if_false]
  unfold cards_miss
  by_cases h : (api_fetch apiKey net "cards" params).2.1 = 200 <;> simp [h]

/-- Miss path of `handle_sets` forwards the fetched payload whatever the
status. -/
theorem handle_sets_miss_payload (apiKey : String) (net : Network)
    (now : Int) (db : Store) (params : List (String × String))
    (hmiss : jTruthyOpt (cache_get db (setsCacheKey params) now).1 =
      false) :
    (handle_sets apiKey net now db params).1 =
      (api_fetch apiKey net "sets" params).1 := by
  unfold handle_sets
  simp only [hmiss, Bool.false_eq_true, if_false]
  unfold sets_miss
  by_cases h : (api_fetch apiKey net "sets" params).2.1 = 200 <;> simp [h]

/-- Unless the upstream answered with an HTTP error whose body decoded to
a non-dict JSON value, the `api_fetch` payload is a dict: the
missing-key, non-dict-success, undecodable-error-body and transport-fail
paths all build `{"error": ...}` objects, and a success body must be a
dict to survive the `_rateLimit` assignment. -/
theorem api_fetch_obj_unless (apiKey : String) (net : Network)
    (endpoint : String) (params : List (String × String))
    (hbenign : match net endpoint params with
       | .httpError _ (.inl j) => ∃ kvs, j = JVal.obj kvs
       | _ => True) :
    ∃ l, (api_fetch apiKey net endpoint params).1 = .obj l := by
  unfold api_fetch
  by_cases hk : apiKey = ""
  · rw [if_pos hk]
    exact ⟨_, rfl⟩
  · rw [if_neg hk]
    revert hbenign
    rcases net endpoint params with ⟨body, l, r, s⟩ | ⟨code, b⟩ | ⟨msg⟩ <;>
      intro hbenign
    · cases body <;> exact ⟨_, rfl⟩
    · rcases b with j | raw
      · obtain ⟨kvs, hkvs⟩ := hbenign
        subst hkvs
        exact ⟨kvs, rfl⟩
      · exact ⟨_, rfl⟩
    · exact ⟨_, rfl⟩

/-- The aggregate `handle_popular` builds on a miss is a dict. -/
theorem popular_result_obj (apiKey : String) (net : Network) :
    ∃ l, popular_result apiKey net = .obj l := ⟨_, rfl⟩

/-- C8 amended, covering every query class of the façade: on a cache hit
(fresh, non-empty dict entry) `handle_cards`, `handle_sets` and
`handle_popular` return status 200 and a mapping carrying a
`_cached: true` flag (the key is named `_cached`); on a miss the cards
and sets payloads are mappings except when an upstream HTTP error body
decodes to a non-mapping JSON value, and the popular payload is always a
mapping, returned with status 200. -/
theorem facade_payload_shape :
    (∀ (apiKey : String) (net : Network) (now : Int) (db : Store)
       (params : List (String × String)) (kvs : List (String × JVal)),
      kvs ≠ [] →
      (cache_get db (cardsCacheKey params) now).1 = some (.obj kvs) →
      (handle_cards apiKey net now db params).2.1 = 200 ∧
      jGet (handle_cards apiKey net now db params).1 "_cached" =
        some (.bool true) ∧
      ∃ l, (handle_cards apiKey net now db params).1 = .obj l) ∧
    (∀ (apiKey : String) (net : Network) (now : Int) (db : Store)
       (kvs : List (String × JVal)),
      kvs ≠ [] →
      (cache_get db "popular:v2" now).1 = some (.obj kvs) →
      (handle_popular apiKey net now db).2.1 = 200 ∧
      jGet (handle_popular apiKey net now db).1 "_cached" =
        some (.bool true) ∧
      ∃ l, (handle_popular apiKey net now db).1 = .obj l) ∧
    (∀ (apiKey : String) (net : Network) (now : Int) (db : Store)
       (params : List (String × String)) (kvs : List (String × JVal)),
      kvs ≠ [] →
      (cache_get db (setsCacheKey params) now).1 = some (.obj kvs) →
      (handle_sets apiKey net now db params).2.1 = 200 ∧
      jGet (handle_sets apiKey net now db params).1 "_cached" =
        some (.bool true) ∧
      ∃ l, (handle_sets apiKey net now db params).1 = .obj l) ∧
    (∀ (apiKey : String) (net : Network) (now : Int) (db : Store)
       (params : List (String × String)),
      jTruthyOpt (cache_get db (cardsCacheKey params) now).1 = false →
      (match net "cards" params with
       | .httpError _ (.inl j) => ∃ kvs, j = .obj kvs
       | _ => True) →
      ∃ l, (handle_cards apiKey net now db params).1 = .obj l) ∧
    (∀ (apiKey : String) (net : Network) (now : Int) (db : Store)
       (params : List (String × String)),
      jTruthyOpt (cache_get db (setsCacheKey params) now).1 = false →
      (match net "sets" params with
       | .httpError _ (.inl j) => ∃ kvs, j = .obj kvs
       | _ => True) →
      ∃ l, (handle_sets apiKey net now db params).1 = .obj l) ∧
    (∀ (apiKey : String) (net : Network) (now : Int) (db : Store),
      jTruthyOpt (cache_get db "popular:v2" now).1 = false →
      (handle_popular apiKey net now db).2.1 = 200 ∧
      ∃ l, (handle_popular apiKey net now db).1 = .obj l) := by
  refine ⟨?_, ?_, ?_, ?_, ?_, ?_⟩
  · intro apiKey net now db params kvs hne hget
    rw [handle_cards_hit apiKey net now db params kvs hne hget]
    exact ⟨rfl,
      by simpa [jGet] using lookup_setPair kvs "_cached" (.bool true),
      ⟨_, rfl⟩⟩
  · intro apiKey net now db kvs hne hget
    rw [handle_popular_hit apiKey net now db kvs hne hget]
    exact ⟨rfl,
      by simpa [jGet] using lookup_setPair kvs "_cached" (.bool true),
      ⟨_, rfl⟩⟩
  · intro apiKey net now db params kvs hne hget
    rw [handle_sets_hit apiKey net now db params kvs hne hget]
    exact ⟨rfl,
      by simpa [jGet] using lookup_setPair kvs "_cached" (.bool true),
      ⟨_, rfl⟩⟩
  · intro apiKey net now db params hmiss hbenign
    rw [handle_cards_miss_payload apiKey net now db params hmiss]
    exact api_fetch_obj_unless apiKey net "cards" params hbenign
  · intro apiKey net now db params hmiss hbenign
    rw [handle_sets_miss_payload apiKey net now db params hmiss]
    exact api_fetch_obj_unless apiKey net "sets" params hbenign
  · intro apiKey net now db hmiss
    have hout : handle_popular apiKey net now db =
        (popular_result apiKey net, 200,
          cache_set (cache_get db "popular:v2" now).2 "popular:v2"
            (popular_result apiKey net) TTL_POPULAR now) := by
      unfold handle_popular
      simp only [hmiss, Bool.false_eq_true, if_false]
      rfl
    rw [hout]
    exact ⟨rfl, popular_result_obj apiKey net⟩

/-- Witness for the amended C8: concrete hits on the cards and sets
classes, and a concrete popular miss. -/
theorem facade_payload_shape_witness :
    (handle_cards "k" failNet 0 hitStore []).2.1 = 200 ∧
    jGet (handle_cards "k" failNet 0 hitStore []).1 "_cached" =
      some (.bool true) ∧
    (handle_sets "k" failNet 0 hitStoreSets []).2.1 = 200 ∧
    jGet (handle_sets "k" failNet 0 hitStoreSets []).1 "_cached" =
      some (.bool true) ∧
    (handle_popular "k" failNet 0 []).2.1 = 200 :=
  ⟨(facade_payload_shape.1 "k" failNet 0 hitStore [] [("x", .num 1)]
      (by decide) (by decide)).1,
   (facade_payload_shape.1 "k" failNet 0 hitStore [] [("x", .num 1)]
      (by decide) (by decide)).2.1,
   (facade_payload_shape.2.2.1 "k" failNet 0 hitStoreSets [] [("x", .num 1)]
      (by decide) (by decide)).1,
   (facade_payload_shape.2.2.1 "k" failNet 0 hitStoreSets [] [("x", .num 1)]
      (by decide) (by decide)).2.1,
   (facade_payload_shape.2.2.2.2.2 "k" failNet 0 [] (by decide)).1⟩

end PokePulse
